/-
Verification of the DFR-MoistureTracker firmware (shallow embedding).

Each C module that the specification's testable properties talk about is
embedded as executable Lean definitions:

* `src/adc_manager.c`      — calibration registry (`createCali`, `getCaliHandle`)
* `src/soil_moisture.c`    — sampling pipeline and moisture transform
* `src/battery_monitor.c`  — sampling pipeline and divider transform
* `src/mqtt_publisher.c`   — event handler for the connected flag
* `src/factory_reset.c`    — debounce filter and long-press state machine
* `src/wifi_credentials.c` / `src/wifi_provisioning.c` — persisted identity
* `src/main.c`             — `init_system` failure policy

External collaborators (ESP-IDF ADC reads, NVS, the MQTT client) are passed
in as explicit inputs (lists of per-sample outcomes, oracles for the
calibration curve, records of per-step results), so every definition is a
pure function of its inputs exactly mirroring the C control flow.
Floating-point values are idealised as rationals; the claims proved about
them carry explicit tolerances where the spec states them.
-/
import Mathlib

namespace MoistureTracker

/-! ## soil_moisture.c — calibration constants and the moisture transform

`soil_moisture_read_percentage` (src/src/soil_moisture.c:247-282) converts a
measured voltage (in mV, after the volts→mV conversion on line 255) to a
percentage by linear interpolation between `SENSOR_DRY_MV` and
`SENSOR_WET_MV`, then clamps to [0, 100]. -/

/-- `#define SENSOR_DRY_MV 2950` (soil_moisture.c:58). -/
def SENSOR_DRY_MV : ℤ := 2950

/-- `#define SENSOR_WET_MV 851` (soil_moisture.c:59). -/
def SENSOR_WET_MV : ℤ := 851

/-- The voltage→percentage transform of `soil_moisture_read_percentage`
(soil_moisture.c:260-277), as a function of the integer millivolt value
computed on line 255.  The C `float` arithmetic is idealised as `ℚ`. -/
def moisture_percent_of_mV (voltage_mV : ℤ) : ℚ :=
  let percentage : ℚ :=
    if voltage_mV ≥ SENSOR_DRY_MV then 0
    else if voltage_mV ≤ SENSOR_WET_MV then 100
    else 100 * ((SENSOR_DRY_MV : ℚ) - (voltage_mV : ℚ)) /
         ((SENSOR_DRY_MV : ℚ) - (SENSOR_WET_MV : ℚ))
  -- clamp to valid range (soil_moisture.c:276-277)
  let p1 : ℚ := if percentage < 0 then 0 else percentage
  if p1 > 100 then 100 else p1

example : moisture_percent_of_mV 3000 = 0 := by
  norm_num [moisture_percent_of_mV, SENSOR_DRY_MV, SENSOR_WET_MV]
example : moisture_percent_of_mV 800 = 100 := by
  norm_num [moisture_percent_of_mV, SENSOR_DRY_MV, SENSOR_WET_MV]
example : moisture_percent_of_mV 1850 = 110000 / 2099 := by
  norm_num [moisture_percent_of_mV, SENSOR_DRY_MV, SENSOR_WET_MV]

/-! ## Error codes

The `esp_err_t` values the embedded modules actually return, as an enum. -/

/-- The `esp_err_t` return codes used by the embedded modules. -/
inductive EspErr : Type
  | ok                     -- ESP_OK
  | fail                   -- ESP_FAIL
  | errNoMem               -- ESP_ERR_NO_MEM
  | errInvalidArg          -- ESP_ERR_INVALID_ARG
  | errInvalidState        -- ESP_ERR_INVALID_STATE
  | errNvsNoFreePages      -- ESP_ERR_NVS_NO_FREE_PAGES
  | errNvsNewVersionFound  -- ESP_ERR_NVS_NEW_VERSION_FOUND
  | other (code : ℕ)       -- any other ESP-IDF error code
deriving DecidableEq, Repr

/-! ## adc_manager.c — the calibration registry

`cali_handles` (adc_manager.c:57) is a fixed array of `MAX_CALI_HANDLES = 4`
entries, each `{channel, atten, handle, in_use}`.  We model it as a list of
`CaliEntry` whose length stays 4; calibration handles are opaque and modelled
as natural numbers.  The outcome of the external
`adc_cali_create_scheme_curve_fitting` call is an explicit input:
`some h` means the scheme was created with handle `h`, `none` means it
failed (the C code then returns the error without storing anything). -/

/-- `cali_entry_t` (adc_manager.c:49-54). -/
structure CaliEntry : Type where
  channel : ℕ
  atten : ℕ
  handle : ℕ
  in_use : Bool
deriving DecidableEq, Repr

/-- `#define MAX_CALI_HANDLES 4` (adc_manager.c:37). -/
def MAX_CALI_HANDLES : ℕ := 4

/-- `static cali_entry_t cali_handles[MAX_CALI_HANDLES] = {0}` —
all slots zeroed, `in_use = false` (adc_manager.c:57). -/
def initCaliHandles : List CaliEntry :=
  List.replicate MAX_CALI_HANDLES ⟨0, 0, 0, false⟩

/-- Predicate for a slot matching a request, as tested on
adc_manager.c:132-134: `in_use && channel == channel && atten == atten`. -/
def caliMatches (channel atten : ℕ) (e : CaliEntry) : Bool :=
  e.in_use && e.channel == channel && e.atten == atten

/-- `adc_manager_get_cali_handle` (adc_manager.c:130-139): linear scan for
the first in-use slot with the same (channel, atten); `NULL` (here `none`)
if no match. -/
def adc_manager_get_cali_handle (reg : List CaliEntry) (channel atten : ℕ) :
    Option ℕ :=
  (reg.find? (caliMatches channel atten)).map (·.handle)

/-- `adc_manager_create_cali` (adc_manager.c:166-214).  Returns the result
(`Except` error / handle) together with the registry after the call.
`schemeResult` is the outcome of the external
`adc_cali_create_scheme_curve_fitting` call on line 199. -/
def adc_manager_create_cali (reg : List CaliEntry) (channel atten : ℕ)
    (schemeResult : Option ℕ) : Except EspErr ℕ × List CaliEntry :=
  -- check if already exists (lines 172-176)
  match adc_manager_get_cali_handle reg channel atten with
  | some existing => (.ok existing, reg)
  | none =>
    -- find free slot (lines 179-190)
    match reg.findIdx? (fun e => !e.in_use) with
    | none => (.error .errNoMem, reg)
    | some free_slot =>
      -- create calibration scheme (lines 193-203)
      match schemeResult with
      | none => (.error .fail, reg)
      | some h =>
        -- store in slot (lines 206-209)
        (.ok h, reg.set free_slot ⟨channel, atten, h, true⟩)

/-- A boot cycle's worth of `adc_manager_create_cali` calls: each request is
(channel, atten, scheme-creation outcome); the registry starts all-free and
is threaded through the calls. -/
def runCreateCali (reqs : List (ℕ × ℕ × Option ℕ)) : List CaliEntry :=
  reqs.foldl (fun reg r => (adc_manager_create_cali reg r.1 r.2.1 r.2.2).2)
    initCaliHandles

/-- Uniqueness invariant of the registry: at most one in-use entry per
(channel, atten) pair. -/
def caliUnique (reg : List CaliEntry) : Prop :=
  ∀ channel atten : ℕ, (reg.filter (caliMatches channel atten)).length ≤ 1

/-! ## The sampling loops of soil_moisture.c and battery_monitor.c

Both `soil_moisture_read_voltage` (soil_moisture.c:157-205) and
`battery_monitor_read_voltage` (battery_monitor.c:58-108) run the same loop:
`SAMPLE_COUNT` calls to `adc_oneshot_read`, accumulating successful raw
values into a `uint32_t value_sum` and counting them in `valid_samples`;
failed reads are only logged.  The per-sample outcomes are an explicit
input: `some raw` for `ESP_OK` with that raw value, `none` for a failed
read.  The outcome of `adc_cali_raw_to_voltage` is an oracle
`cali : ℕ → Option ℤ` (`none` = conversion error). -/

/-- `#define SAMPLE_COUNT 10` (soil_moisture.c:49 and battery_monitor.c:13). -/
def SAMPLE_COUNT : ℕ := 10

/-- Modulus of the `uint32_t` accumulator `value_sum`. -/
def UINT32_MOD : ℕ := 2 ^ 32

/-- The sampling loop (soil_moisture.c:171-183, battery_monitor.c:72-84):
returns (`value_sum`, `valid_samples`).  `value_sum` is a `uint32_t`, so
each addition is taken mod `2^32`. -/
def sample_loop (samples : List (Option ℕ)) : ℕ × ℕ :=
  samples.foldl
    (fun acc s =>
      match s with
      | some raw_value => ((acc.1 + raw_value) % UINT32_MOD, acc.2 + 1)
      | none => acc)
    (0, 0)

/-- `avg_raw = value_sum / valid_samples` guarded by the
`valid_samples == 0` check (soil_moisture.c:185-190,
battery_monitor.c:86-91); `none` when every read failed. -/
def adc_avg_raw (samples : List (Option ℕ)) : Option ℕ :=
  let r := sample_loop samples
  if r.2 = 0 then none else some (r.1 / r.2)

/-- `soil_moisture_read_voltage` (soil_moisture.c:157-205) as a pure
function; the returned C `float` (volts) is idealised as `ℚ`.  Every
early-exit `return 0.0f` of the C code is a `0` branch here. -/
def soil_moisture_read_voltage (initialized : Bool) (adcHandleAvail : Bool)
    (samples : List (Option ℕ)) (cali : ℕ → Option ℤ) : ℚ :=
  if !initialized then 0                         -- line 158-161
  else if !adcHandleAvail then 0                 -- line 164-168
  else
    match adc_avg_raw samples with
    | none => 0                                  -- line 185-188
    | some avg_raw =>
      match cali avg_raw with
      | none => 0                                -- line 194-198
      | some voltage_mV => (voltage_mV : ℚ) / 1000  -- line 200

/-- The C cast `(int)(voltage * 1000.0f)` (soil_moisture.c:255): conversion
of a float to int truncates toward zero. -/
def c_trunc (x : ℚ) : ℤ :=
  if 0 ≤ x then ⌊x⌋ else ⌈x⌉

/-- `soil_moisture_read_percentage` (soil_moisture.c:247-282) as a pure
function of the same inputs as `soil_moisture_read_voltage`. -/
def soil_moisture_read_percentage (initialized : Bool) (adcHandleAvail : Bool)
    (samples : List (Option ℕ)) (cali : ℕ → Option ℤ) : ℚ :=
  if !initialized then 0                         -- line 248-251
  else
    let voltage := soil_moisture_read_voltage initialized adcHandleAvail samples cali
    let voltage_mV := c_trunc (voltage * 1000)   -- line 255
    moisture_percent_of_mV voltage_mV            -- lines 260-277

/-- `#define VOLTAGE_DIVIDER 2.0f` (battery_monitor.c:12). -/
def VOLTAGE_DIVIDER : ℚ := 2

/-- `battery_monitor_read_voltage` (battery_monitor.c:58-108). -/
def battery_monitor_read_voltage (initialized : Bool) (adcHandleAvail : Bool)
    (samples : List (Option ℕ)) (cali : ℕ → Option ℤ) : ℚ :=
  if !initialized then 0                         -- line 59-62
  else if !adcHandleAvail then 0                 -- line 65-69
  else
    match adc_avg_raw samples with
    | none => 0                                  -- line 86-89
    | some avg_raw =>
      match cali avg_raw with
      | none => 0                                -- line 95-99
      | some voltage_mV => (voltage_mV : ℚ) * VOLTAGE_DIVIDER / 1000  -- line 102

/-! ## mqtt_publisher.c — the connected flag

`mqtt_event_handler` (mqtt_publisher.c:12-38) is a `switch` on the event
id updating the module flag `mqtt_connected`.  In the source, the
`MQTT_EVENT_CONNECTED` case sets `mqtt_connected = true` (line 19) but its
`break` is commented out (line 24), so control falls through into the
`MQTT_EVENT_DISCONNECTED` case, which sets `mqtt_connected = false`
(line 28) and then breaks.  The net effect of a connected event is
therefore `false`, and the model reproduces exactly that. -/

/-- The MQTT event ids the handler distinguishes. -/
inductive MqttEventId : Type
  | connected     -- MQTT_EVENT_CONNECTED
  | disconnected  -- MQTT_EVENT_DISCONNECTED
  | error         -- MQTT_EVENT_ERROR
  | otherEvent    -- anything else (default case)
deriving DecidableEq, Repr

/-- `mqtt_event_handler` (mqtt_publisher.c:12-38): the new value of
`mqtt_connected` after one event.  The `connected` case yields `false`
because the C case falls through into the `disconnected` case (the
assignment `mqtt_connected = true` on line 19 is immediately overwritten
by line 28; the `break` on line 24 is commented out). -/
def mqtt_event_handler (mqtt_connected : Bool) (event_id : MqttEventId) : Bool :=
  match event_id with
  | .connected => false     -- lines 17-28: set true, fall through, set false
  | .disconnected => false  -- lines 26-29
  | .error => mqtt_connected       -- lines 31-33: flag untouched
  | .otherEvent => mqtt_connected  -- lines 35-36: flag untouched

/-- `mqtt_publisher_is_connected` (mqtt_publisher.c:80-82). -/
def mqtt_publisher_is_connected (mqtt_connected : Bool) : Bool :=
  mqtt_connected

/-- The `mqtt_connected` flag after a sequence of events, starting from the
boot value `false` (mqtt_publisher.c:8). -/
def runMqttEvents (events : List MqttEventId) : Bool :=
  events.foldl mqtt_event_handler false

/-! ## factory_reset.c — debounce filter and long-press detection

`is_button_pressed` (factory_reset.c:41-57) keeps two `static` locals
(`last_change_time`, `last_stable_state`); `factory_reset_check`
(factory_reset.c:83-132) keeps three module statics
(`button_press_start_ms`, `button_was_pressed`, `reset_triggered`).
All five are collected into explicit state records.  A poll supplies the
current time `now` (ms since boot, `get_time_ms`) and the raw GPIO level
already compared against `BUTTON_PRESSED` (`raw_pressed = true` means the
pin reads pressed).  Time is modelled as `ℕ`; the `uint32_t` subtraction
`now - last_change_time` agrees with `ℕ` subtraction because timestamps
stored in the state always come from earlier polls of a monotone clock.
The destructive action (clear credentials + restart, lines 110-114) is
reported as a boolean "fired" output rather than performed. -/

/-- `#define DEBOUNCE_TIME_MS 50` (factory_reset.c:23). -/
def DEBOUNCE_TIME_MS : ℕ := 50

/-- `#define LONG_PRESS_DURATION_MS 5000` (factory_reset.c:22). -/
def LONG_PRESS_DURATION_MS : ℕ := 5000

/-- The `static` locals of `is_button_pressed` (factory_reset.c:42-43). -/
structure DebounceState : Type where
  last_change_time : ℕ
  last_stable_state : Bool
deriving DecidableEq, Repr

/-- Boot values of the debounce statics (factory_reset.c:42-43). -/
def initDebounceState : DebounceState := ⟨0, false⟩

/-- `is_button_pressed` (factory_reset.c:41-57): one debounce poll.
Returns the reported (stable) level and the updated statics. -/
def is_button_pressed (s : DebounceState) (now : ℕ) (raw_pressed : Bool) :
    Bool × DebounceState :=
  let current_state := raw_pressed
  -- if state changed, update timestamp (lines 49-54)
  if current_state ≠ s.last_stable_state then
    if now - s.last_change_time ≥ DEBOUNCE_TIME_MS then
      (current_state, ⟨now, current_state⟩)
    else
      (s.last_stable_state, s)
  else
    (s.last_stable_state, s)

/-- The module statics of factory_reset.c (lines 27-29) together with the
debounce statics. -/
structure FactoryResetState : Type where
  debounce : DebounceState
  button_press_start_ms : ℕ
  button_was_pressed : Bool
  reset_triggered : Bool
deriving DecidableEq, Repr

/-- Boot values of the factory-reset statics (factory_reset.c:27-29, 42-43). -/
def initFactoryResetState : FactoryResetState :=
  ⟨initDebounceState, 0, false, false⟩

/-- `factory_reset_check` (factory_reset.c:83-132): one poll.  Returns the
updated state and whether the destructive action (clear credentials and
restart, lines 105-114) fired during this call.  The two `get_time_ms()`
calls of one poll (one inside `is_button_pressed`, one on line 90) are
modelled as the same instant `now`. -/
def factory_reset_check (s : FactoryResetState) (now : ℕ) (raw_pressed : Bool) :
    FactoryResetState × Bool :=
  -- don't check if already triggered (lines 85-87)
  if s.reset_triggered then (s, false)
  else
    let r := is_button_pressed s.debounce now raw_pressed
    let currently_pressed := r.1
    let d := r.2
    -- button just pressed (lines 93-98)
    if currently_pressed && !s.button_was_pressed then
      ({ s with debounce := d, button_press_start_ms := now,
                button_was_pressed := true }, false)
    -- button still held (lines 100-121)
    else if currently_pressed && s.button_was_pressed then
      let press_duration := now - s.button_press_start_ms
      if press_duration ≥ LONG_PRESS_DURATION_MS then
        ({ s with debounce := d, reset_triggered := true }, true)
      else
        ({ s with debounce := d }, false)
    -- button released (lines 123-131)
    else if !currently_pressed && s.button_was_pressed then
      ({ s with debounce := d, button_was_pressed := false }, false)
    else
      ({ s with debounce := d }, false)

/-- A sequence of polls, threading the state and counting how many polls
fired the destructive action. -/
def factory_reset_run (s : FactoryResetState) :
    List (ℕ × Bool) → FactoryResetState × ℕ
  | [] => (s, 0)
  | p :: ps =>
    let r := factory_reset_check s p.1 p.2
    let rest := factory_reset_run r.1 ps
    (rest.1, (if r.2 then 1 else 0) + rest.2)

/-- The debounce filter alone over a poll sequence (used to scrutinise the
debounce claim independently of the long-press machine). -/
def debounce_run (s : DebounceState) (polls : List (ℕ × Bool)) : DebounceState :=
  polls.foldl (fun st p => (is_button_pressed st p.1 p.2).2) s

/-! ## wifi_credentials.c — the persisted identity

The NVS namespace `wifi_config` holds the keys `ssid`, `password`,
`provisioned` (a `u8`) and `device_id` (wifi_credentials.c:10-14); it is
modelled as a record of optional values (absent key = `none`).  Strings are
`List Char`.  The outcomes of the fallible NVS primitives
(`nvs_open` / `nvs_set_*` / `nvs_commit`) inside one `wifi_credentials_save`
call are explicit boolean inputs; a failed `nvs_set` leaves the store
untouched and the function returns early exactly as the C does. -/

/-- The persisted `wifi_config` NVS namespace. -/
structure NvsStore : Type where
  ssid : Option (List Char)
  password : Option (List Char)
  provisioned : Option ℕ
  device_id : Option (List Char)
deriving DecidableEq, Repr

/-- A store in which the namespace is empty (factory state, or after
`wifi_credentials_clear`'s `nvs_erase_all`, wifi_credentials.c:163). -/
def emptyNvsStore : NvsStore := ⟨none, none, none, none⟩

/-- Outcomes of the NVS primitives called inside `wifi_credentials_save`. -/
structure SaveOutcomes : Type where
  openOk : Bool
  setSsidOk : Bool
  setPasswordOk : Bool
  setProvisionedOk : Bool
  commitOk : Bool
deriving DecidableEq, Repr

/-- `wifi_credentials_save` (wifi_credentials.c:66-105): writes `ssid`,
`password` and then `provisioned = 1`, returning early on the first
failure. -/
def wifi_credentials_save (o : SaveOutcomes) (ssid password : List Char)
    (st : NvsStore) : EspErr × NvsStore :=
  if !o.openOk then (.fail, st)                              -- lines 68-72
  else if !o.setSsidOk then (.fail, st)                      -- lines 74-79
  else
    let st1 := { st with ssid := some ssid }
    if !o.setPasswordOk then (.fail, st1)                    -- lines 81-86
    else
      let st2 := { st1 with password := some password }
      if !o.setProvisionedOk then (.fail, st2)               -- lines 88-93
      else
        let st3 := { st2 with provisioned := some 1 }
        if !o.commitOk then (.fail, st3) else (.ok, st3)     -- lines 95-104

/-- `wifi_credentials_save_device_id` (wifi_credentials.c:107-132):
writes only the `device_id` key; never touches `provisioned`. -/
def wifi_credentials_save_device_id (openOk setOk commitOk : Bool)
    (device_id : List Char) (st : NvsStore) : EspErr × NvsStore :=
  if !openOk then (.fail, st)
  else if !setOk then (.fail, st)
  else
    let st1 := { st with device_id := some device_id }
    if !commitOk then (.fail, st1) else (.ok, st1)

/-- `wifi_credentials_is_provisioned` (wifi_credentials.c:16-35): true iff
the key is present with value 1. -/
def wifi_credentials_is_provisioned (st : NvsStore) : Bool :=
  st.provisioned == some 1

/-- `wifi_credentials_clear` (wifi_credentials.c:155-176): `nvs_erase_all`
on the namespace (success path). -/
def wifi_credentials_clear (st : NvsStore) : NvsStore :=
  let _ := st
  emptyNvsStore

/-- The DeviceIdentity invariant from the spec: `provisioned == true`
implies ssid and password are present and non-empty. -/
def provisionedInv (st : NvsStore) : Bool :=
  if st.provisioned == some 1 then
    (match st.ssid with | some s => !s.isEmpty | none => false) &&
    (match st.password with | some p => !p.isEmpty | none => false)
  else true

/-! ## wifi_provisioning.c — the form-field parser

`parse_form_fields` (wifi_provisioning.c:68-88) locates the three keys via
`strstr`, copies each value up to the next `&` (or end of string) with
`copy_form_field` (wifi_provisioning.c:57-66), rejecting values that do not
fit the destination buffer, then applies `url_decode`
(wifi_provisioning.c:47-54), which only replaces `+` by a space.  The
destination buffer sizes come from `save_post_handler`
(wifi_provisioning.c:116-118): `ssid[33]`, `password[65]`, `device_id[33]`. -/

/-- `strstr(hay, pat)`: the suffix of `hay` beginning at the first
occurrence of `pat`, or `none`. -/
def strstrSuffix (pat : List Char) : List Char → Option (List Char)
  | [] => if pat.isPrefixOf ([] : List Char) then some [] else none
  | h :: t =>
    if pat.isPrefixOf (h :: t) then some (h :: t)
    else strstrSuffix pat t

/-- `copy_form_field` (wifi_provisioning.c:57-66): skip the key, take the
value up to the first `&` (or end), fail if it does not fit in `dst_len`. -/
def copy_form_field (start : List Char) (key_len dst_len : ℕ) :
    Option (List Char) :=
  let v := (start.drop key_len).takeWhile (fun c => c ≠ '&')
  if v.length ≥ dst_len then none else some v

/-- `url_decode` (wifi_provisioning.c:47-54): `+` → space; percent-escapes
are left as-is. -/
def url_decode (s : List Char) : List Char :=
  s.map (fun c => if c = '+' then ' ' else c)

/-- `parse_form_fields` (wifi_provisioning.c:68-88). -/
def parse_form_fields (buf : List Char) :
    Option (List Char × List Char × List Char) :=
  match strstrSuffix "ssid=".toList buf,
        strstrSuffix "password=".toList buf,
        strstrSuffix "device_id=".toList buf with
  | some ssid_start, some pass_start, some device_id_start =>
    match copy_form_field ssid_start 5 33,
          copy_form_field pass_start 9 65,
          copy_form_field device_id_start 10 33 with
    | some s, some p, some d =>
      some (url_decode s, url_decode p, url_decode d)
    | _, _, _ => none
  | _, _, _ => none

/-! ## main.c — init_system failure policy

`init_system` (main.c:98-171) runs the subsystem initialisations in order;
the outcome of each underlying call is an explicit input.  NVS gets the
erase-and-retry treatment of main.c:103-108 (`ESP_ERROR_CHECK` on the
erase aborts the process, modelled as `abortRun`).  Battery-monitor and
soil-moisture failures are only logged ("continuing anyway",
main.c:152-168). -/

/-- Per-call outcomes of the subsystem initialisations in `init_system`. -/
structure InitOutcomes : Type where
  nvsInit1 : EspErr         -- first nvs_flash_init() (main.c:103)
  nvsEraseOk : Bool         -- nvs_flash_erase() under ESP_ERROR_CHECK (main.c:106)
  nvsInit2 : EspErr         -- retry nvs_flash_init() (main.c:107)
  netifInit : EspErr        -- esp_netif_init() (main.c:117)
  eventLoopCreate : EspErr  -- esp_event_loop_create_default() (main.c:126)
  adcManagerInit : EspErr   -- adc_manager_init() (main.c:135)
  factoryResetInit : EspErr -- factory_reset_init() (main.c:144)
  batteryMonitorInit : EspErr -- battery_monitor_init() (main.c:153)
  soilMoistureInit : EspErr   -- soil_moisture_init() (main.c:162)
deriving DecidableEq, Repr

/-- Result of `init_system`: an `esp_err_t`, or a process abort
(`ESP_ERROR_CHECK` failure). -/
inductive InitResult : Type
  | ok
  | err (e : EspErr)
  | abortRun
deriving DecidableEq, Repr

/-- The NVS init with truncated-partition retry (main.c:103-108):
`none` means the process aborted inside `ESP_ERROR_CHECK`. -/
def nvs_init_with_retry (o : InitOutcomes) : Option EspErr :=
  if o.nvsInit1 = .errNvsNoFreePages ∨ o.nvsInit1 = .errNvsNewVersionFound then
    if o.nvsEraseOk then some o.nvsInit2 else none
  else some o.nvsInit1

/-- `init_system` (main.c:98-171). -/
def init_system (o : InitOutcomes) : InitResult :=
  match nvs_init_with_retry o with
  | none => .abortRun
  | some ret =>
    if ret ≠ .ok then .err ret                                -- lines 109-112
    else if o.netifInit ≠ .ok then .err o.netifInit           -- lines 117-121
    else if o.eventLoopCreate ≠ .ok then .err o.eventLoopCreate -- lines 126-130
    else if o.adcManagerInit ≠ .ok then .err o.adcManagerInit -- lines 135-139
    else if o.factoryResetInit ≠ .ok then .err o.factoryResetInit -- lines 144-148
    else .ok  -- battery (152-158) and soil-moisture (161-168) failures only logged

/-- Where `app_main` goes right after `init_system` (main.c:539-544):
on success it proceeds to `setup_wifi`, on error it enters deep sleep. -/
inductive BootPhase : Type
  | wifiSetup
  | sleeping
  | aborted
deriving DecidableEq, Repr

/-- The `app_main` step after `init_system` (main.c:540-547). -/
def app_main_after_init (r : InitResult) : BootPhase :=
  match r with
  | .ok => .wifiSetup
  | .err _ => .sleeping
  | .abortRun => .aborted

/-! ## Helper lemmas about the moisture transform -/

/-- Dry region: at or above `SENSOR_DRY_MV` the transform reports 0. -/
lemma moisture_dry {v : ℤ} (h : v ≥ 2950) : moisture_percent_of_mV v = 0 := by
  simp only [moisture_percent_of_mV, SENSOR_DRY_MV, SENSOR_WET_MV]
  rw [if_pos h]
  norm_num

/-- Wet region: at or below `SENSOR_WET_MV` the transform reports 100. -/
lemma moisture_wet {v : ℤ} (h : v ≤ 851) : moisture_percent_of_mV v = 100 := by
  simp only [moisture_percent_of_mV, SENSOR_DRY_MV, SENSOR_WET_MV]
  rw [if_neg (by omega : ¬ v ≥ (2950 : ℤ)), if_pos h]
  norm_num

/-- Interpolation region: strictly between the calibration points the
result is the clamp-free linear interpolation. -/
lemma moisture_mid {v : ℤ} (h1 : 851 < v) (h2 : v < 2950) :
    moisture_percent_of_mV v = 100 * ((2950 : ℚ) - (v : ℚ)) / 2099 := by
  have hq1 : (851 : ℚ) < (v : ℚ) := by exact_mod_cast h1
  have hq2 : (v : ℚ) < 2950 := by exact_mod_cast h2
  have hge : (0 : ℚ) ≤ 100 * ((2950 : ℚ) - (v : ℚ)) / 2099 := by
    apply div_nonneg _ (by norm_num)
    linarith
  have hle : 100 * ((2950 : ℚ) - (v : ℚ)) / 2099 ≤ 100 := by
    rw [div_le_iff₀ (by norm_num : (0 : ℚ) < 2099)]
    linarith
  simp only [moisture_percent_of_mV, SENSOR_DRY_MV, SENSOR_WET_MV]
  rw [if_neg (by omega : ¬ v ≥ (2950 : ℤ)), if_neg (by omega : ¬ v ≤ (851 : ℤ))]
  norm_num
  split_ifs <;> first | rfl | linarith

/-- Clamp-free piecewise closed form of the transform. -/
lemma moisture_percent_closed_form (v : ℤ) :
    moisture_percent_of_mV v =
      if 2950 ≤ v then 0
      else if v ≤ 851 then 100
      else 100 * ((2950 : ℚ) - (v : ℚ)) / 2099 := by
  by_cases h1 : 2950 ≤ v
  · rw [if_pos h1, moisture_dry h1]
  · by_cases h2 : v ≤ 851
    · rw [if_neg h1, if_pos h2, moisture_wet h2]
    · rw [if_neg h1, if_neg h2, moisture_mid (by omega) (by omega)]

/-- The transform always lands in [0, 100]. -/
lemma moisture_percent_bounds (v : ℤ) :
    0 ≤ moisture_percent_of_mV v ∧ moisture_percent_of_mV v ≤ 100 := by
  by_cases h1 : 2950 ≤ v
  · rw [moisture_dry h1]
    norm_num
  · by_cases h2 : v ≤ 851
    · rw [moisture_wet h2]
      norm_num
    · rw [moisture_mid (by omega) (by omega)]
      have hq1 : (851 : ℚ) < (v : ℚ) := by exact_mod_cast (by omega : (851 : ℤ) < v)
      have hq2 : (v : ℚ) < 2950 := by exact_mod_cast (by omega : v < (2950 : ℤ))
      constructor
      · apply div_nonneg _ (by norm_num)
        linarith
      · rw [div_le_iff₀ (by norm_num : (0 : ℚ) < 2099)]
        linarith

/-- Monotonicity of the transform over all of ℤ: lower voltage means at
least as much reported moisture. -/
lemma moisture_percent_antitone {v1 v2 : ℤ} (h : v1 ≤ v2) :
    moisture_percent_of_mV v2 ≤ moisture_percent_of_mV v1 := by
  by_cases h1 : 2950 ≤ v2
  · rw [moisture_dry h1]
    exact (moisture_percent_bounds v1).1
  · by_cases h2 : v2 ≤ 851
    · rw [moisture_wet h2, moisture_wet (by omega : v1 ≤ (851 : ℤ))]
  -- mid region for v2
    · rw [moisture_mid (by omega) (by omega)]
      by_cases h3 : v1 ≤ 851
      · rw [moisture_wet h3]
        have hq1 : (851 : ℚ) < (v2 : ℚ) := by exact_mod_cast (by omega : (851 : ℤ) < v2)
        rw [div_le_iff₀ (by norm_num : (0 : ℚ) < 2099)]
        linarith
      · rw [moisture_mid (by omega) (by omega : v1 < (2950 : ℤ))]
        have hq : (v1 : ℚ) ≤ (v2 : ℚ) := by exact_mod_cast h
        gcongr

/-! ## Helper lemmas about the sampling loop -/

/-- The sampling fold, from an arbitrary accumulator: as long as the total
of the valid raw values keeps the `uint32_t` accumulator below `2^32`, the
fold adds up exactly the valid samples and counts them. -/
lemma sample_loop_foldl (samples : List (Option ℕ)) :
    ∀ s0 k0 : ℕ, s0 + (samples.filterMap id).sum < UINT32_MOD →
      samples.foldl
        (fun acc s =>
          match s with
          | some raw_value => ((acc.1 + raw_value) % UINT32_MOD, acc.2 + 1)
          | none => acc)
        (s0, k0) =
      (s0 + (samples.filterMap id).sum,
       k0 + (samples.filterMap id).length) := by
  induction samples with
  | nil =>
    intro s0 k0 _
    simp
  | cons hd tl ih =>
    intro s0 k0 h
    cases hd with
    | none =>
      simpa using ih s0 k0 (by simpa using h)
    | some r =>
      have hsum : s0 + r + (tl.filterMap id).sum < UINT32_MOD := by
        simp only [List.filterMap_cons, id] at h
        simp only [List.sum_cons] at h
        omega
      have hmod : (s0 + r) % UINT32_MOD = s0 + r :=
        Nat.mod_eq_of_lt (by omega)
      simp only [List.foldl_cons, List.filterMap_cons, id, List.sum_cons,
        List.length_cons, hmod]
      rw [ih (s0 + r) (k0 + 1) hsum]
      rw [Prod.mk.injEq]
      constructor <;> omega

/-- `sample_loop` computes the sum and count of exactly the valid samples
(no overflow case). -/
lemma sample_loop_spec (samples : List (Option ℕ))
    (h : (samples.filterMap id).sum < UINT32_MOD) :
    sample_loop samples =
      ((samples.filterMap id).sum, (samples.filterMap id).length) := by
  have := sample_loop_foldl samples 0 0 (by simpa using h)
  simpa [sample_loop] using this

/-- With no valid sample at all, the loop yields sum 0 and count 0. -/
lemma sample_loop_all_failed (samples : List (Option ℕ))
    (h : samples.filterMap id = []) :
    sample_loop samples = (0, 0) := by
  have := sample_loop_spec samples (by rw [h]; simp [UINT32_MOD])
  rw [h] at this
  simpa using this

/-! ## Claim theorems -/

/-- C1: For every voltage reading, `soil_moisture_read_percentage` maps the
measured millivolt value by the piecewise-linear rule: if
`voltage_mV >= dry_mV` (2950) the result is 0; if `voltage_mV <= wet_mV`
(851) the result is 100; otherwise the result is
`100*(dry_mV - voltage_mV)/(dry_mV - wet_mV)`; in particular, for
`voltage_mV = 1850` the result is 52.4 within ±0.1. -/
theorem C1_moisture_piecewise_rule (voltage_mV : ℤ) :
    (voltage_mV ≥ SENSOR_DRY_MV → moisture_percent_of_mV voltage_mV = 0) ∧
    (voltage_mV ≤ SENSOR_WET_MV → moisture_percent_of_mV voltage_mV = 100) ∧
    (SENSOR_WET_MV < voltage_mV → voltage_mV < SENSOR_DRY_MV →
      moisture_percent_of_mV voltage_mV =
        100 * ((SENSOR_DRY_MV : ℚ) - (voltage_mV : ℚ)) /
          ((SENSOR_DRY_MV : ℚ) - (SENSOR_WET_MV : ℚ))) ∧
    |moisture_percent_of_mV 1850 - 524 / 10| ≤ 1 / 10 := by
  refine ⟨fun h => moisture_dry h, fun h => moisture_wet h, fun h1 h2 => ?_, ?_⟩
  · rw [moisture_mid h1 h2]
    norm_num [SENSOR_DRY_MV, SENSOR_WET_MV]
  · rw [moisture_mid (by norm_num) (by norm_num), abs_le]
    norm_num

/-- Witness for C1 at concrete inputs: 3000 mV (dry), 800 mV (wet) and
1850 mV (interpolation, 52.4 ± 0.1). -/
theorem C1_moisture_piecewise_rule_witness :
    moisture_percent_of_mV 3000 = 0 ∧
    moisture_percent_of_mV 800 = 100 ∧
    moisture_percent_of_mV 1850 =
      100 * ((SENSOR_DRY_MV : ℚ) - 1850) /
        ((SENSOR_DRY_MV : ℚ) - (SENSOR_WET_MV : ℚ)) ∧
    |moisture_percent_of_mV 1850 - 524 / 10| ≤ 1 / 10 :=
  ⟨(C1_moisture_piecewise_rule 3000).1 (by decide),
   (C1_moisture_piecewise_rule 800).2.1 (by decide),
   (C1_moisture_piecewise_rule 1850).2.2.1 (by decide) (by decide),
   (C1_moisture_piecewise_rule 1850).2.2.2⟩

/-- C7: The moisture transform is monotonically non-increasing in voltage;
it is exactly 0 at `voltage_mV = dry_mV`, exactly 100 at
`voltage_mV = wet_mV`, and for every voltage (also outside the calibration
range) the returned percentage is within [0, 100]. -/
theorem C7_moisture_monotone_and_clamped :
    (∀ v1 v2 : ℤ, v1 < v2 →
      moisture_percent_of_mV v1 ≥ moisture_percent_of_mV v2) ∧
    moisture_percent_of_mV SENSOR_DRY_MV = 0 ∧
    moisture_percent_of_mV SENSOR_WET_MV = 100 ∧
    ∀ v : ℤ, 0 ≤ moisture_percent_of_mV v ∧ moisture_percent_of_mV v ≤ 100 :=
  ⟨fun _ _ h => moisture_percent_antitone (le_of_lt h),
   moisture_dry (by decide),
   moisture_wet (by decide),
   moisture_percent_bounds⟩

/-- Witness for C7 at concrete inputs (1000 mV is wetter than 2000 mV;
the value at -5 mV and at 5000 mV stays clamped inside [0, 100]). -/
theorem C7_moisture_monotone_and_clamped_witness :
    moisture_percent_of_mV 1000 ≥ moisture_percent_of_mV 2000 ∧
    (0 ≤ moisture_percent_of_mV (-5) ∧ moisture_percent_of_mV (-5) ≤ 100) ∧
    (0 ≤ moisture_percent_of_mV 5000 ∧ moisture_percent_of_mV 5000 ≤ 100) :=
  ⟨C7_moisture_monotone_and_clamped.1 1000 2000 (by decide),
   C7_moisture_monotone_and_clamped.2.2.2 (-5),
   C7_moisture_monotone_and_clamped.2.2.2 5000⟩

/-- C4 (code bug): after `MQTT_EVENT_CONNECTED` is delivered to
`mqtt_event_handler`, `mqtt_publisher_is_connected()` returns `false`, not
`true` — the `connected` case lacks a `break` (mqtt_publisher.c:24 is
commented out) and falls through into the `disconnected` case, which
clears the flag it just set.  This theorem evaluates the embedded handler
at the failing input. -/
theorem C4_connected_event_leaves_flag_false :
    mqtt_publisher_is_connected (runMqttEvents [.connected]) = false ∧
    ∀ flag : Bool,
      mqtt_publisher_is_connected (mqtt_event_handler flag .connected) = false :=
  ⟨rfl, fun _ => rfl⟩

/-- C8: For every sample set with k ≥ 1 valid reads (and no `uint32_t`
overflow of the running sum — raw ADC counts are far below that), the
computed raw average is the integer mean of exactly the k valid raw
samples, and both the soil-moisture and the battery pipeline convert that
very average.  Failed reads contribute neither to the sum nor to the
divisor. -/
theorem C8_average_of_exactly_valid_samples (samples : List (Option ℕ))
    (hsum : (samples.filterMap id).sum < UINT32_MOD)
    (hk : 1 ≤ (samples.filterMap id).length) :
    adc_avg_raw samples =
      some ((samples.filterMap id).sum / (samples.filterMap id).length) ∧
    ∀ cali : ℕ → Option ℤ,
      soil_moisture_read_voltage true true samples cali =
        (match cali ((samples.filterMap id).sum / (samples.filterMap id).length)
         with
         | none => 0
         | some voltage_mV => (voltage_mV : ℚ) / 1000) ∧
      battery_monitor_read_voltage true true samples cali =
        (match cali ((samples.filterMap id).sum / (samples.filterMap id).length)
         with
         | none => 0
         | some voltage_mV => (voltage_mV : ℚ) * VOLTAGE_DIVIDER / 1000) := by
  have havg : adc_avg_raw samples =
      some ((samples.filterMap id).sum / (samples.filterMap id).length) := by
    unfold adc_avg_raw
    rw [sample_loop_spec samples hsum]
    simp only
    rw [if_neg (by omega)]
  refine ⟨havg, fun cali => ?_⟩
  constructor
  · unfold soil_moisture_read_voltage
    rw [havg]
    simp
  · unfold battery_monitor_read_voltage
    rw [havg]
    simp

/-- Witness for C8: 10 samples of which three fail; the average is the mean
of the seven valid values only. -/
theorem C8_average_of_exactly_valid_samples_witness :
    adc_avg_raw
        [some 100, none, some 200, some 300, none, some 400, some 500, none,
         some 600, some 700] = some 400 ∧
    soil_moisture_read_voltage true true
        [some 100, none, some 200, some 300, none, some 400, some 500, none,
         some 600, some 700] (fun r => some (r : ℤ)) = 400 / 1000 := by
  have h := C8_average_of_exactly_valid_samples
    [some 100, none, some 200, some 300, none, some 400, some 500, none,
     some 600, some 700]
    (by decide) (by decide)
  have e : (List.filterMap id
        [some 100, none, some 200, some 300, none, some 400, some 500, none,
         some 600, some 700]).sum /
      (List.filterMap id
        [some 100, none, some 200, some 300, none, some 400, some 500, none,
         some 600, some 700]).length = 400 := by decide
  refine ⟨?_, ?_⟩
  · rw [h.1, e]
  · rw [(h.2 (fun r => some (r : ℤ))).1, e]
    norm_num

/-- C3 is false as stated (see `C3_counterexample`): the amended claim.
If all `SAMPLE_COUNT` reads fail in one call, `soil_moisture_read_voltage`
returns 0.0 with no error channel (the error is only logged), and
`soil_moisture_read_percentage` consequently reports 100 — the 0 V reading
is at or below `SENSOR_WET_MV`, so total failure is reported as fully wet,
and the caller cannot tell it apart from a legitimate reading by the
returned value. -/
theorem C3_total_failure_returns_zero_volts_and_100_percent
    (samples : List (Option ℕ)) (cali : ℕ → Option ℤ)
    (h : samples.filterMap id = []) :
    soil_moisture_read_voltage true true samples cali = 0 ∧
    soil_moisture_read_percentage true true samples cali = 100 := by
  have hv : soil_moisture_read_voltage true true samples cali = 0 := by
    unfold soil_moisture_read_voltage adc_avg_raw
    rw [sample_loop_all_failed samples h]
    simp
  refine ⟨hv, ?_⟩
  unfold soil_moisture_read_percentage
  rw [hv]
  simp only [Bool.not_true, zero_mul]
  have : c_trunc 0 = 0 := by
    unfold c_trunc
    simp
  rw [this]
  exact moisture_wet (show (0 : ℤ) ≤ 851 by decide)

/-- Witness for C3's amended theorem: all ten reads fail. -/
theorem C3_total_failure_witness :
    soil_moisture_read_voltage true true (List.replicate 10 none)
        (fun r => some (r : ℤ)) = 0 ∧
    soil_moisture_read_percentage true true (List.replicate 10 none)
        (fun r => some (r : ℤ)) = 100 :=
  C3_total_failure_returns_zero_volts_and_100_percent
    (List.replicate 10 none) (fun r => some (r : ℤ)) (by decide)

/-- C3 counterexample: the claim as stated is false on the code.  With all
10 sample reads failing, the pipeline does not report an error value of 0
through any error channel: `soil_moisture_read_percentage` returns 100
(not 0), and `soil_moisture_read_voltage` returns the same 0.0 that a
legitimate all-successful read of a 0 mV input produces, so the caller
cannot distinguish total failure from a legitimate reading at all — the
functions' only output is the float. -/
theorem C3_counterexample :
    soil_moisture_read_percentage true true (List.replicate 10 none)
        (fun r => some (r : ℤ)) = 100 ∧
    soil_moisture_read_voltage true true (List.replicate 10 none)
        (fun r => some (r : ℤ)) =
      soil_moisture_read_voltage true true (List.replicate 10 (some 0))
        (fun r => some (r : ℤ)) := by
  constructor
  · have hv : soil_moisture_read_voltage true true
        (List.replicate 10 (none : Option ℕ)) (fun r => some (r : ℤ)) = 0 := by
      unfold soil_moisture_read_voltage adc_avg_raw
      rw [sample_loop_all_failed _ (by decide)]
      simp
    unfold soil_moisture_read_percentage
    rw [hv]
    simp only [Bool.not_true, zero_mul]
    have : c_trunc 0 = 0 := by
      unfold c_trunc
      simp
    rw [this]
    exact moisture_wet (show (0 : ℤ) ≤ 851 by decide)
  · have h1 : soil_moisture_read_voltage true true
        (List.replicate 10 (none : Option ℕ)) (fun r => some (r : ℤ)) = 0 := by
      unfold soil_moisture_read_voltage adc_avg_raw
      rw [sample_loop_all_failed _ (by decide)]
      simp
    have h2 : soil_moisture_read_voltage true true
        (List.replicate 10 (some 0)) (fun r => some (r : ℤ)) = 0 := by
      unfold soil_moisture_read_voltage adc_avg_raw
      rw [sample_loop_spec _ (by decide)]
      simp
    rw [h1, h2]

/-! ## Helper lemmas for the calibration-registry invariant (C2) -/

/-- Replacing one slot in a list where no element satisfies `p` leaves at
most one `p`-satisfying element (the replacement itself). -/
lemma filter_set_length_le_one {α : Type} (p : α → Bool) (l : List α) (x : α)
    (h : ∀ e ∈ l, p e = false) :
    ∀ i : ℕ, ((l.set i x).filter p).length ≤ 1 := by
  induction l with
  | nil =>
    intro i
    simp
  | cons hd tl ih =>
    intro i
    have hhd : p hd = false := h hd (List.mem_cons_self hd tl)
    have htl : ∀ e ∈ tl, p e = false :=
      fun e he => h e (List.mem_cons_of_mem hd he)
    have htlnil : tl.filter p = [] :=
      List.filter_eq_nil_iff.mpr (fun e he => by simp [htl e he])
    cases i with
    | zero =>
      simp only [List.set]
      cases hx : p x <;> simp [List.filter_cons, hx, htlnil]
    | succ n =>
      simp only [List.set]
      rw [List.filter_cons, if_neg (by simp [hhd])]
      exact ih htl n

/-- Replacing one slot with an element failing `p` never increases the
number of `p`-satisfying elements. -/
lemma filter_set_length_le {α : Type} (p : α → Bool) (l : List α) (x : α)
    (hx : p x = false) :
    ∀ i : ℕ, ((l.set i x).filter p).length ≤ (l.filter p).length := by
  induction l with
  | nil =>
    intro i
    simp
  | cons hd tl ih =>
    intro i
    cases i with
    | zero =>
      simp only [List.set]
      rw [List.filter_cons, if_neg (by simp [hx]), List.filter_cons]
      cases hph : p hd <;> simp
    | succ n =>
      simp only [List.set]
      rw [List.filter_cons, List.filter_cons]
      cases hph : p hd <;> simp [ih n]

/-- One `adc_manager_create_cali` call preserves the uniqueness invariant. -/
lemma createCali_preserves_unique (reg : List CaliEntry) (ch at_ : ℕ)
    (sr : Option ℕ) (h : caliUnique reg) :
    caliUnique (adc_manager_create_cali reg ch at_ sr).2 := by
  unfold adc_manager_create_cali
  cases hget : adc_manager_get_cali_handle reg ch at_ with
  | some existing => exact h
  | none =>
    cases hidx : reg.findIdx? (fun e => !e.in_use) with
    | none => exact h
    | some i =>
      cases sr with
      | none => exact h
      | some hdl =>
        intro c a
        have hnomatch : ∀ e ∈ reg, caliMatches ch at_ e = false := by
          intro e he
          have := List.find?_eq_none.mp (by
            unfold adc_manager_get_cali_handle at hget
            exact Option.map_eq_none.mp hget) e he
          simpa using this
        by_cases hpair : c = ch ∧ a = at_
        · obtain ⟨rfl, rfl⟩ := hpair
          exact filter_set_length_le_one (caliMatches c a) reg _ hnomatch i
        · have hxfalse : caliMatches c a ⟨ch, at_, hdl, true⟩ = false := by
            unfold caliMatches
            simp only [Bool.true_and, Bool.and_eq_false_iff, beq_eq_false_iff_ne,
              ne_eq]
            rcases not_and_or.mp hpair with hne | hne
            · exact Or.inl (fun h' => hne h'.symm)
            · exact Or.inr (fun h' => hne h'.symm)
          calc ((reg.set i ⟨ch, at_, hdl, true⟩).filter
                  (caliMatches c a)).length
              ≤ (reg.filter (caliMatches c a)).length :=
                filter_set_length_le (caliMatches c a) reg _ hxfalse i
            _ ≤ 1 := h c a

/-- The all-free boot registry satisfies the uniqueness invariant. -/
lemma initCaliHandles_unique : caliUnique initCaliHandles := by
  intro c a
  simp [initCaliHandles, MAX_CALI_HANDLES, caliMatches]

/-- Every registry reachable by a sequence of `adc_manager_create_cali`
calls from boot satisfies the uniqueness invariant. -/
lemma runCreateCali_unique (reqs : List (ℕ × ℕ × Option ℕ)) :
    caliUnique (runCreateCali reqs) := by
  suffices h : ∀ reg : List CaliEntry, caliUnique reg →
      caliUnique (reqs.foldl
        (fun reg r => (adc_manager_create_cali reg r.1 r.2.1 r.2.2).2) reg) by
    exact h initCaliHandles initCaliHandles_unique
  induction reqs with
  | nil => exact fun reg hreg => hreg
  | cons r rs ih =>
    intro reg hreg
    exact ih _ (createCali_preserves_unique reg r.1 r.2.1 r.2.2 hreg)

/-- C2: At every point in a boot cycle the calibration registry holds at
most one entry per (channel, gain_level) pair; `adc_manager_create_cali`
returns the cached handle on an exact match (registry untouched), and a
request for a distinct pair when all slots are in use deterministically
fails with `ESP_ERR_NO_MEM` while the registry is left exactly as it was
(no entry evicted or corrupted). -/
theorem C2_cali_registry_unique_and_bounded :
    (∀ reqs : List (ℕ × ℕ × Option ℕ), caliUnique (runCreateCali reqs)) ∧
    (∀ (reg : List CaliEntry) (ch at_ : ℕ) (sr : Option ℕ) (h : ℕ),
      adc_manager_get_cali_handle reg ch at_ = some h →
      adc_manager_create_cali reg ch at_ sr = (.ok h, reg)) ∧
    (∀ (reg : List CaliEntry) (ch at_ : ℕ) (sr : Option ℕ),
      (∀ e ∈ reg, e.in_use = true) →
      adc_manager_get_cali_handle reg ch at_ = none →
      adc_manager_create_cali reg ch at_ sr = (.error .errNoMem, reg)) := by
  refine ⟨runCreateCali_unique, ?_, ?_⟩
  · intro reg ch at_ sr h hget
    unfold adc_manager_create_cali
    rw [hget]
  · intro reg ch at_ sr hfull hget
    unfold adc_manager_create_cali
    rw [hget]
    have hidx : reg.findIdx? (fun e => !e.in_use) = none := by
      rw [List.findIdx?_eq_none_iff]
      intro e he
      simp [hfull e he]
    rw [hidx]

/-- Witness for C2: a concrete boot sequence, a concrete cache hit, and a
concrete full-registry rejection. -/
theorem C2_cali_registry_unique_and_bounded_witness :
    caliUnique (runCreateCali [(0, 3, some 11), (1, 3, some 12)]) ∧
    adc_manager_create_cali
        [⟨0, 3, 11, true⟩, ⟨1, 3, 12, true⟩, ⟨0, 0, 0, false⟩, ⟨0, 0, 0, false⟩]
        0 3 (some 99) =
      (.ok 11,
       [⟨0, 3, 11, true⟩, ⟨1, 3, 12, true⟩, ⟨0, 0, 0, false⟩, ⟨0, 0, 0, false⟩]) ∧
    adc_manager_create_cali
        [⟨0, 0, 1, true⟩, ⟨1, 0, 2, true⟩, ⟨2, 0, 3, true⟩, ⟨3, 0, 4, true⟩]
        4 0 (some 99) =
      (.error .errNoMem,
       [⟨0, 0, 1, true⟩, ⟨1, 0, 2, true⟩, ⟨2, 0, 3, true⟩, ⟨3, 0, 4, true⟩]) :=
  ⟨C2_cali_registry_unique_and_bounded.1 [(0, 3, some 11), (1, 3, some 12)],
   C2_cali_registry_unique_and_bounded.2.1
     [⟨0, 3, 11, true⟩, ⟨1, 3, 12, true⟩, ⟨0, 0, 0, false⟩, ⟨0, 0, 0, false⟩]
     0 3 (some 99) 11 (by decide),
   C2_cali_registry_unique_and_bounded.2.2
     [⟨0, 0, 1, true⟩, ⟨1, 0, 2, true⟩, ⟨2, 0, 3, true⟩, ⟨3, 0, 4, true⟩]
     4 0 (some 99) (by decide) (by decide)⟩

/-! ## C5 — the debounce filter -/

/-- C5 counterexample: the claim as stated is false on the code.  Starting
from the boot state, the raw level reads released at t = 1000 ms and
pressed at t = 1010 ms; the 1010 ms poll immediately accepts the press as
a stable transition (the filter only checks the time since the *last
accepted transition*, not how long the new level has persisted), and the
release poll at t = 1020 ms cannot undo it.  A raw press that persisted at
most 20 ms — far under the 50 ms debounce window — registered as a stable
transition. -/
theorem C5_counterexample :
    (debounce_run initDebounceState
        [(1000, false), (1010, true), (1020, false)]).last_stable_state
      = true ∧
    (is_button_pressed (debounce_run initDebounceState [(1000, false)])
        1010 true).1 = true :=
  ⟨rfl, rfl⟩

/-- C5 (amended): the debounce filter rate-limits transitions instead of
requiring level persistence.  A level change is accepted as stable at a
poll exactly when at least `debounce_window` (50 ms) has elapsed since the
last accepted transition; when it is accepted the new stable level is the
raw level and the transition time is recorded, and otherwise the poll
changes nothing and keeps reporting the old stable level.  In particular a
raw press shorter than the window still registers whenever it arrives
50 ms or more after the last accepted transition. -/
theorem C5_debounce_rate_limits_transitions (s : DebounceState) (now : ℕ)
    (raw_pressed : Bool) :
    (raw_pressed = s.last_stable_state ∨
        now - s.last_change_time < DEBOUNCE_TIME_MS →
      is_button_pressed s now raw_pressed = (s.last_stable_state, s)) ∧
    (raw_pressed ≠ s.last_stable_state →
      DEBOUNCE_TIME_MS ≤ now - s.last_change_time →
      is_button_pressed s now raw_pressed =
        (raw_pressed, ⟨now, raw_pressed⟩)) := by
  constructor
  · intro h
    unfold is_button_pressed
    rcases h with h | h
    · rw [if_neg (by simp [h])]
    · by_cases hne : raw_pressed ≠ s.last_stable_state
      · rw [if_pos hne, if_neg (by omega)]
      · rw [if_neg hne]
  · intro hne hel
    unfold is_button_pressed
    rw [if_pos hne, if_pos (by omega)]

/-- Witness for C5's amended theorem: a change 10 ms after boot is held
back; the same change 60 ms after boot is accepted at once. -/
theorem C5_debounce_rate_limits_transitions_witness :
    is_button_pressed initDebounceState 10 true = (false, initDebounceState) ∧
    is_button_pressed initDebounceState 60 true = (true, ⟨60, true⟩) :=
  ⟨(C5_debounce_rate_limits_transitions initDebounceState 10 true).1
     (Or.inr (by decide)),
   (C5_debounce_rate_limits_transitions initDebounceState 60 true).2
     (by decide) (by decide)⟩

/-! ## C6 — the long-press trigger fires at most once per boot -/

/-- A poll with the trigger latch set does nothing (factory_reset.c:85-87). -/
lemma factory_reset_check_latched {s : FactoryResetState} (h : s.reset_triggered = true)
    (now : ℕ) (raw_pressed : Bool) :
    factory_reset_check s now raw_pressed = (s, false) := by
  unfold factory_reset_check
  rw [if_pos h]

/-- Characterisation of the polls that fire the destructive action: the
latch must be clear, the debounced level pressed, the press already
registered at an earlier poll, and the press duration at least
`LONG_PRESS_DURATION_MS`. -/
lemma factory_reset_check_fires_iff (s : FactoryResetState) (now : ℕ)
    (raw_pressed : Bool) :
    (factory_reset_check s now raw_pressed).2 = true ↔
      s.reset_triggered = false ∧
      (is_button_pressed s.debounce now raw_pressed).1 = true ∧
      s.button_was_pressed = true ∧
      LONG_PRESS_DURATION_MS ≤ now - s.button_press_start_ms := by
  unfold factory_reset_check
  by_cases ht : s.reset_triggered
  · rw [if_pos ht]
    simp [ht]
  · rw [if_neg ht]
    simp only [Bool.not_eq_true] at ht
    cases hp : (is_button_pressed s.debounce now raw_pressed).1 <;>
      cases hw : s.button_was_pressed
    all_goals
      simp only [ht, hp, hw, ge_iff_le, Bool.true_and, Bool.false_and,
        Bool.and_true, Bool.and_false, Bool.not_true, Bool.not_false,
        if_true, if_false, Bool.false_eq_true, Bool.true_eq_false, if_neg,
        true_and, false_and, and_true, and_false, iff_false,
        not_false_eq_true, true_iff, false_iff]
    all_goals
      first
        | simp
        | (split_ifs with hd
           all_goals simp [hd])

/-- Firing sets the latch. -/
lemma factory_reset_check_fire_sets_latch (s : FactoryResetState) (now : ℕ)
    (raw_pressed : Bool) (h : (factory_reset_check s now raw_pressed).2 = true) :
    (factory_reset_check s now raw_pressed).1.reset_triggered = true := by
  have hc := (factory_reset_check_fires_iff s now raw_pressed).mp h
  unfold factory_reset_check
  rw [if_neg (by simp [hc.1]), if_neg (by simp [hc.2.2.1]),
    if_pos (by simp [hc.2.1, hc.2.2.1]), if_pos (by
      simpa [ge_iff_le] using hc.2.2.2)]

/-- The latch never clears. -/
lemma factory_reset_check_latch_mono (s : FactoryResetState) (now : ℕ)
    (raw_pressed : Bool) (h : s.reset_triggered = true) :
    (factory_reset_check s now raw_pressed).1.reset_triggered = true := by
  rw [factory_reset_check_latched h]
  exact h

/-- With the latch set, a whole run fires nothing. -/
lemma factory_reset_run_latched (polls : List (ℕ × Bool)) :
    ∀ s : FactoryResetState, s.reset_triggered = true →
      (factory_reset_run s polls).2 = 0 := by
  induction polls with
  | nil => intro s _; rfl
  | cons p ps ih =>
    intro s h
    unfold factory_reset_run
    rw [factory_reset_check_latched h]
    simp [ih s h]

/-- Any run fires the destructive action at most once. -/
lemma factory_reset_run_at_most_once (polls : List (ℕ × Bool)) :
    ∀ s : FactoryResetState, (factory_reset_run s polls).2 ≤ 1 := by
  induction polls with
  | nil => intro s; simp [factory_reset_run]
  | cons p ps ih =>
    intro s
    unfold factory_reset_run
    cases hf : (factory_reset_check s p.1 p.2).2
    · simpa [hf] using ih (factory_reset_check s p.1 p.2).1
    · have hl := factory_reset_check_fire_sets_latch s p.1 p.2 hf
      simp [hf, factory_reset_run_latched ps _ hl]

/-- C6: In every boot cycle the factory-reset action fires at most once:
over any poll sequence from the boot state the destructive action
(clearing persisted identity and scheduling restart) runs at most one
time; once the latch is set every later call performs no action at all;
a poll fires exactly when the latch is clear, the debounced level is
pressed, the press was registered earlier, and it has lasted at least
`long_press_duration` (5000 ms) — so a press released before the threshold
(or any poll before the threshold) produces no side effects. -/
theorem C6_factory_reset_fires_at_most_once :
    (∀ polls : List (ℕ × Bool),
      (factory_reset_run initFactoryResetState polls).2 ≤ 1) ∧
    (∀ (s : FactoryResetState) (now : ℕ) (raw_pressed : Bool),
      s.reset_triggered = true →
      factory_reset_check s now raw_pressed = (s, false)) ∧
    (∀ (s : FactoryResetState) (now : ℕ) (raw_pressed : Bool),
      (factory_reset_check s now raw_pressed).2 = true ↔
        s.reset_triggered = false ∧
        (is_button_pressed s.debounce now raw_pressed).1 = true ∧
        s.button_was_pressed = true ∧
        LONG_PRESS_DURATION_MS ≤ now - s.button_press_start_ms) :=
  ⟨fun polls => factory_reset_run_at_most_once polls initFactoryResetState,
   fun _ now raw h => factory_reset_check_latched h now raw,
   factory_reset_check_fires_iff⟩

/-- Witness for C6: a run where the button is pressed at t = 100 ms and
still held at t = 5100 ms fires exactly once and never again; a latched
state ignores a poll; a 5000 ms-old press fires; a press of only
4999 ms does not. -/
theorem C6_factory_reset_fires_at_most_once_witness :
    (factory_reset_run initFactoryResetState
        [(100, true), (5100, true), (6000, true)]).2 ≤ 1 ∧
    factory_reset_check ⟨⟨0, false⟩, 0, false, true⟩ 42 true =
      (⟨⟨0, false⟩, 0, false, true⟩, false) ∧
    (factory_reset_check ⟨⟨100, true⟩, 100, true, false⟩ 5100 true).2 = true ∧
    (factory_reset_check ⟨⟨100, true⟩, 100, true, false⟩ 5099 true).2 = false := by
  refine ⟨C6_factory_reset_fires_at_most_once.1
      [(100, true), (5100, true), (6000, true)],
    C6_factory_reset_fires_at_most_once.2.1 _ 42 true (by decide),
    (C6_factory_reset_fires_at_most_once.2.2 ⟨⟨100, true⟩, 100, true, false⟩
        5100 true).mpr ⟨by decide, by decide, by decide, by decide⟩,
    ?_⟩
  cases hh : (factory_reset_check ⟨⟨100, true⟩, 100, true, false⟩ 5099 true).2
  · rfl
  · exfalso
    have h := (C6_factory_reset_fires_at_most_once.2.2
        ⟨⟨100, true⟩, 100, true, false⟩ 5099 true).mp hh
    have hdur : LONG_PRESS_DURATION_MS ≤ 5099 - 100 := h.2.2.2
    simp [LONG_PRESS_DURATION_MS] at hdur

/-! ## C9 — the persisted-identity invariant -/

/-- C9 counterexample: the claim as stated is false on the code.  The
provisioning form parser accepts a body whose `ssid` and `password`
fields are empty (`copy_form_field` only rejects oversized values,
wifi_provisioning.c:62), and `wifi_credentials_save` then sets
`provisioned = 1` unconditionally (wifi_credentials.c:88), leaving a store
with `provisioned == true` but an empty ssid — violating the invariant. -/
theorem C9_counterexample :
    parse_form_fields "ssid=&password=&device_id=x".toList =
      some ([], [], ['x']) ∧
    (wifi_credentials_save ⟨true, true, true, true, true⟩ [] []
        emptyNvsStore).1 = .ok ∧
    wifi_credentials_is_provisioned
      (wifi_credentials_save ⟨true, true, true, true, true⟩ [] []
        emptyNvsStore).2 = true ∧
    provisionedInv
      (wifi_credentials_save ⟨true, true, true, true, true⟩ [] []
        emptyNvsStore).2 = false := by
  refine ⟨?_, rfl, rfl, rfl⟩
  rfl

/-- C9 (amended): `wifi_credentials_save` always sets `provisioned = 1`
and stores the given strings verbatim, so the invariant
(`provisioned == true` implies ssid and password present and non-empty) is
preserved only under the extra assumption that the submitted ssid and
password are non-empty; since `parse_form_fields` accepts empty field
values, the code itself does not guarantee the invariant (see
`C9_counterexample`).  Under that assumption, every outcome of a save —
including the partial-failure early returns — preserves the invariant. -/
theorem C9_save_preserves_invariant_for_nonempty (o : SaveOutcomes)
    (ssid password : List Char) (st : NvsStore)
    (hinv : provisionedInv st = true)
    (hssid : ssid ≠ []) (hpass : password ≠ []) :
    provisionedInv (wifi_credentials_save o ssid password st).2 = true := by
  have hs : ssid.isEmpty = false := by
    cases ssid
    · exact absurd rfl hssid
    · rfl
  have hp : password.isEmpty = false := by
    cases password
    · exact absurd rfl hpass
    · rfl
  have hpassSt : (st.provisioned == some 1) = true →
      (match st.password with | some p => !p.isEmpty | none => false) = true := by
    intro h
    unfold provisionedInv at hinv
    rw [if_pos h, Bool.and_eq_true] at hinv
    exact hinv.2
  have hA : provisionedInv
      ⟨some ssid, st.password, st.provisioned, st.device_id⟩ = true := by
    unfold provisionedInv
    cases hq : st.provisioned == some 1
    · simp [hq]
    · simp [hq, hs, hpassSt hq]
  have hB : provisionedInv
      ⟨some ssid, some password, st.provisioned, st.device_id⟩ = true := by
    unfold provisionedInv
    cases hq : st.provisioned == some 1
    · simp [hq]
    · simp [hq, hs, hp]
  have hC : provisionedInv
      ⟨some ssid, some password, some 1, st.device_id⟩ = true := by
    unfold provisionedInv
    simp [hs, hp]
  simp only [wifi_credentials_save]
  split_ifs
  · exact hinv
  · exact hinv
  · exact hA
  · exact hB
  · exact hC
  · exact hC

/-- Witness for C9's amended theorem at a concrete save. -/
theorem C9_save_preserves_invariant_witness :
    provisionedInv
      (wifi_credentials_save ⟨true, true, true, true, true⟩
        "home".toList "secret".toList emptyNvsStore).2 = true :=
  C9_save_preserves_invariant_for_nonempty ⟨true, true, true, true, true⟩
    "home".toList "secret".toList emptyNvsStore rfl (by decide) (by decide)

/-! ## C10 — init_system tolerates sensor-init failures only -/

/-- C10: If `battery_monitor_init` or `soil_moisture_init` fails,
`init_system` still returns `ESP_OK` and the boot proceeds to WiFi setup
(their outcomes do not influence the result at all), and the
uninitialised sensor subsequently reports 0; `init_system` returns an
error — sending `app_main` to deep sleep — exactly on NVS, TCP/IP-stack,
event-loop, ADC-manager or reset-button init failures. -/
theorem C10_init_tolerates_sensor_failures :
    (∀ o : InitOutcomes,
      nvs_init_with_retry o = some .ok →
      o.netifInit = .ok → o.eventLoopCreate = .ok →
      o.adcManagerInit = .ok → o.factoryResetInit = .ok →
      init_system o = .ok ∧
        app_main_after_init (init_system o) = .wifiSetup) ∧
    (∀ (o : InitOutcomes) (b s : EspErr),
      init_system { o with batteryMonitorInit := b, soilMoistureInit := s } =
        init_system o) ∧
    (∀ (o : InitOutcomes) (e : EspErr),
      init_system o = .err e →
      app_main_after_init (init_system o) = .sleeping) ∧
    (∀ o : InitOutcomes,
      init_system o = .ok →
      nvs_init_with_retry o = some .ok ∧ o.netifInit = .ok ∧
      o.eventLoopCreate = .ok ∧ o.adcManagerInit = .ok ∧
      o.factoryResetInit = .ok) ∧
    (∀ (adcHandleAvail : Bool) (samples : List (Option ℕ))
        (cali : ℕ → Option ℤ),
      soil_moisture_read_percentage false adcHandleAvail samples cali = 0 ∧
      battery_monitor_read_voltage false adcHandleAvail samples cali = 0) := by
  refine ⟨?_, ?_, ?_, ?_, ?_⟩
  · intro o hnvs hnet hloop hadc hbtn
    have hinit : init_system o = .ok := by
      unfold init_system
      rw [hnvs]
      simp [hnet, hloop, hadc, hbtn]
    exact ⟨hinit, by rw [hinit]; rfl⟩
  · intro o b s
    unfold init_system nvs_init_with_retry
    rfl
  · intro o e h
    rw [h]
    rfl
  · intro o h
    unfold init_system at h
    cases hnvs : nvs_init_with_retry o with
    | none =>
      rw [hnvs] at h
      exact absurd h (by simp)
    | some ret =>
      rw [hnvs] at h
      dsimp only at h
      split_ifs at h with h1 h2 h3 h4 h5
      all_goals simp_all
  · intro adcHandleAvail samples cali
    exact ⟨rfl, rfl⟩

/-- Witness for C10 at concrete outcomes: everything critical succeeds but
both sensors fail, and the boot still proceeds to WiFi setup; a concrete
ADC-manager failure goes to sleep. -/
theorem C10_init_tolerates_sensor_failures_witness :
    init_system ⟨.ok, true, .ok, .ok, .ok, .ok, .ok, .fail, .errInvalidState⟩ =
      .ok ∧
    app_main_after_init
      (init_system ⟨.ok, true, .ok, .ok, .ok, .ok, .ok, .fail,
        .errInvalidState⟩) = .wifiSetup ∧
    app_main_after_init
      (init_system ⟨.ok, true, .ok, .ok, .ok, .errNoMem, .ok, .ok, .ok⟩) =
      .sleeping ∧
    soil_moisture_read_percentage false true (List.replicate 10 (some 1000))
      (fun r => some (r : ℤ)) = 0 :=
  ⟨(C10_init_tolerates_sensor_failures.1
      ⟨.ok, true, .ok, .ok, .ok, .ok, .ok, .fail, .errInvalidState⟩
      (by decide) rfl rfl rfl rfl).1,
   (C10_init_tolerates_sensor_failures.1
      ⟨.ok, true, .ok, .ok, .ok, .ok, .ok, .fail, .errInvalidState⟩
      (by decide) rfl rfl rfl rfl).2,
   C10_init_tolerates_sensor_failures.2.2.1
      ⟨.ok, true, .ok, .ok, .ok, .errNoMem, .ok, .ok, .ok⟩ .errNoMem
      (by decide),
   (C10_init_tolerates_sensor_failures.2.2.2.2 true
      (List.replicate 10 (some 1000)) (fun r => some (r : ℤ))).1⟩

end MoistureTracker
